import Mathlib

/-!
Shallow embedding of the `insta-card` web component's state-management logic
(`src/insta-card.js`): the reaction state machine (`_react`, `_toggleSave`),
the persistence bridge (`_persist`, `storageKey`, localStorage reads), the
fetch/reconcile sequencer (`_fetchFox`, `_hydrateFromStorage`) and the
one-shot intersection-observer visibility gate (`connectedCallback`).

Rendering, styling and the share action are outside the claims and are not
modelled.  JavaScript numbers holding the counters are modelled as `Int`
(the code only ever adds 1 or applies `Math.max(0, x - 1)`); untyped JSON
blobs read back from storage are modelled as records whose fields are all
optional, with the code's `?? 0`, `?? ""` and `!!` coercions made explicit.
-/

namespace InstaCard

/-- The component's reactive fields, from `static get properties()` and the
constructor: `image`, `link`, `visible`, `loading`, `error`, `likes`,
`dislikes`, `saved`, `userReact` (a string that is `"like"`, `"dislike"` or
`""`).  The purely decorative fields (`title`, `author`, `channel`,
`dateTaken`) play no role in any claim and are omitted. -/
structure CardState where
  image : String
  link : String
  visible : Bool
  loading : Bool
  error : String
  likes : Int
  dislikes : Int
  saved : Bool
  userReact : String
  deriving Repr, DecidableEq

/-- A parsed storage blob.  Both the per-image reaction record
`{likes, dislikes, userReact, saved}` and the global preference record
`{saved}` are loosely-typed JSON objects; every field may be absent, matching
the defensive reads `p.likes ?? 0`, `p.dislikes ?? 0`, `p.userReact ?? ""`,
`!!p.saved` and `!!g.saved` in the source. -/
structure StoredRecord where
  likesF : Option Int
  dislikesF : Option Int
  userReactF : Option String
  savedF : Option Bool
  deriving Repr, DecidableEq

/-- A raw `localStorage` value: either a string that `JSON.parse` accepts
(carrying the parsed record) or a malformed string on which `JSON.parse`
throws. -/
inductive StoredItem where
  | parsable : StoredRecord → StoredItem
  | malformed : StoredItem
  deriving Repr, DecidableEq

/-- The key-value store backing `localStorage`: `none` models
`getItem` returning `null`. -/
def Store : Type := String → Option StoredItem

/-- `get storageKey()`: the per-image persistence key,
`insta-card:${this.image || "pending"}`. -/
def storageKey (image : String) : String :=
  "insta-card:" ++ (if image = "" then "pending" else image)

/-- The fixed key of the global preference record, `"insta-card:global"`. -/
def globalKey : String := "insta-card:global"

/-- The fixed user-facing failure string assigned in `_fetchFox`'s catch. -/
def failMsg : String := "Failed to load fox image."

/-- The fallback source link used when the API response has no `link`. -/
def foxHome : String := "https://randomfox.ca/"

/-- `_hydrateFromStorage()`: read the global record; if present and
parseable set `saved = !!g.saved`; a parse failure is swallowed by the
`try/catch` and leaves the state untouched, exactly like an absent record. -/
def hydrateFromStorage (st : CardState) (store : Store) : CardState :=
  match store globalKey with
  | some (StoredItem.parsable g) => { st with saved := g.savedF.getD false }
  | some StoredItem.malformed => st
  | none => st

/-- The per-image record `_persist` serialises:
`{likes: this.likes, dislikes: this.dislikes, userReact: this.userReact,
saved: this.saved}`, all fields present. -/
def recordOf (st : CardState) : StoredRecord :=
  { likesF := some st.likes
    dislikesF := some st.dislikes
    userReactF := some st.userReact
    savedF := some st.saved }

/-- The global record `_persist` serialises: `{saved: this.saved}`. -/
def globalRecordOf (st : CardState) : StoredRecord :=
  { likesF := none, dislikesF := none, userReactF := none
    savedF := some st.saved }

/-- `_persist()`: if `image` is non-empty, write the per-image record under
`storageKey`; then always write the global record under `globalKey`.  The
second `setItem` happens after the first, so when the two keys coincide
(image string `"global"`) the global record wins. -/
def persist (st : CardState) (store : Store) : Store :=
  let s1 : Store :=
    if st.image = "" then store
    else fun k =>
      if k = storageKey st.image then some (StoredItem.parsable (recordOf st))
      else store k
  fun k =>
    if k = globalKey then some (StoredItem.parsable (globalRecordOf st))
    else s1 k

/-- The outcome of `fetch(FOX_API)` as observed by `_fetchFox`: a transport
error or non-2xx status (which the code turns into a thrown error), or a
successful JSON body `{image, link?}`. -/
inductive FetchResult where
  | failure : FetchResult
  | success : String → Option String → FetchResult
  deriving Repr, DecidableEq

/-- `_fetchFox()`: set `loading = true` and clear `error`; on failure jump to
the catch which sets the fixed message; on success assign `image` and `link`
(defaulting the link), then reconcile with the stored record under the new
image's key — a parseable record restores the four fields with defaults, a
malformed record makes `JSON.parse` throw into the same catch (after `image`
and `link` were already assigned), an absent record resets the counters and
reaction.  The `finally` block clears `loading` and calls `_persist`. -/
def fetchFox (st : CardState) (store : Store) (res : FetchResult) :
    CardState × Store :=
  let st0 := { st with loading := true, error := "" }
  match res with
  | FetchResult.failure =>
      let stF := { st0 with error := failMsg, loading := false }
      (stF, persist stF store)
  | FetchResult.success img lnk =>
      let st1 := { st0 with image := img, link := lnk.getD foxHome }
      match store (storageKey img) with
      | some (StoredItem.parsable p) =>
          let stF := { st1 with
            likes := p.likesF.getD 0
            dislikes := p.dislikesF.getD 0
            userReact := p.userReactF.getD ""
            saved := p.savedF.getD false
            loading := false }
          (stF, persist stF store)
      | some StoredItem.malformed =>
          let stF := { st1 with error := failMsg, loading := false }
          (stF, persist stF store)
      | none =>
          let stF := { st1 with
            likes := 0, dislikes := 0, userReact := "", loading := false }
          (stF, persist stF store)

/-- The pure state update of `_toggleSave()`: flip `saved`. -/
def toggleSaveStep (st : CardState) : CardState :=
  { st with saved := !st.saved }

/-- `_toggleSave()`: flip `saved`, then `_persist`. -/
def toggleSave (st : CardState) (store : Store) : CardState × Store :=
  let st1 := toggleSaveStep st
  (st1, persist st1 store)

/-- The pure state update of `_react(type)`: toggle off when the current
reaction already equals `type` (decrement that counter, floored at 0, via
`Math.max(0, x - 1)` and clear `userReact`); otherwise decrement the other
counter if it was the standing reaction, increment `type`'s counter and set
`userReact = type`. -/
def reactStep (st : CardState) (type : String) : CardState :=
  if st.userReact = type then
    let a := if type = "like" then { st with likes := max 0 (st.likes - 1) } else st
    let b := if type = "dislike" then { a with dislikes := max 0 (a.dislikes - 1) } else a
    { b with userReact := "" }
  else
    if type = "like" then
      let a := if st.userReact = "dislike" then { st with dislikes := max 0 (st.dislikes - 1) } else st
      { a with likes := a.likes + 1, userReact := "like" }
    else
      let a := if st.userReact = "like" then { st with likes := max 0 (st.likes - 1) } else st
      { a with dislikes := a.dislikes + 1, userReact := "dislike" }

/-- `_react(type)`: apply the transition, then `_persist`. -/
def react (st : CardState) (store : Store) (type : String) : CardState × Store :=
  let st1 := reactStep st type
  (st1, persist st1 store)

/-! ### Spec-side comparators (for the refinement claims) -/

/-- The two reaction kinds of the spec's reaction state machine. -/
inductive Kind where
  | like : Kind
  | dislike : Kind
  deriving Repr, DecidableEq

/-- The string the source uses for each kind. -/
def kindStr : Kind → String
  | Kind.like => "like"
  | Kind.dislike => "dislike"

/-- Encoding of the spec's `userReaction ∈ {none, like, dislike}` into the
source's `userReact` string (`""`, `"like"`, `"dislike"`). -/
def encodeReaction : Option Kind → String
  | none => ""
  | some Kind.like => "like"
  | some Kind.dislike => "dislike"

/-- The spec's view of the reaction state: two counters and a reaction tag. -/
structure RState where
  likeCount : Int
  dislikeCount : Int
  userReaction : Option Kind
  deriving Repr, DecidableEq

/-- The other kind. -/
def otherKind : Kind → Kind
  | Kind.like => Kind.dislike
  | Kind.dislike => Kind.like

/-- Modelled from the spec's words (section 4.3), as the comparator for the
refinement claim: if `userReaction == kind` decrement the corresponding
counter floored at 0 and set `userReaction = none`; otherwise decrement the
other counter (floored at 0) when it was the standing reaction, increment
`kind`'s counter and set `userReaction = kind`. -/
def specReact (s : RState) (k : Kind) : RState :=
  if s.userReaction = some k then
    match k with
    | Kind.like =>
        { s with likeCount := max 0 (s.likeCount - 1), userReaction := none }
    | Kind.dislike =>
        { s with dislikeCount := max 0 (s.dislikeCount - 1), userReaction := none }
  else
    let s1 :=
      if s.userReaction = some (otherKind k) then
        match otherKind k with
        | Kind.like => { s with likeCount := max 0 (s.likeCount - 1) }
        | Kind.dislike => { s with dislikeCount := max 0 (s.dislikeCount - 1) }
      else s
    match k with
    | Kind.like =>
        { s1 with likeCount := s1.likeCount + 1, userReaction := some k }
    | Kind.dislike =>
        { s1 with dislikeCount := s1.dislikeCount + 1, userReaction := some k }

/-- Spec-side recurrence for "the most recent reaction that has not been
toggled off": a call on kind `k` undoes a standing reaction on `k` and
otherwise establishes `k`. -/
def activeStep (r : Option Kind) (k : Kind) : Option Kind :=
  if r = some k then none else some k

/-- The standing reaction after a sequence of calls. -/
def activeAfter (r : Option Kind) (ks : List Kind) : Option Kind :=
  ks.foldl activeStep r

/-- The component state after a sequence of `_react` calls (the persistence
side-effects do not feed back into the state transition). -/
def runReacts (st : CardState) (ks : List Kind) : CardState :=
  ks.foldl (fun s k => reactStep s (kindStr k)) st

/-! ### Visibility gate -/

/-- One intersection-observer callback entry, together with the outcome the
subsequent fetch would observe (the fetch outcome is part of the
environment, not of the component). -/
structure ObsEvent where
  isIntersecting : Bool
  fetchRes : FetchResult

/-- Component state as seen by the gate: the card state, the store, and
whether the observer is still connected. -/
structure ObsState where
  st : CardState
  store : Store
  observing : Bool

/-- The body guarded by `e.isIntersecting && !this.visible` in
`connectedCallback`: set `visible = true`, run `_hydrateFromStorage`, run
`_fetchFox`, then `this._io?.disconnect()`. -/
def activate (s : ObsState) (e : ObsEvent) : ObsState :=
  let st1 := { s.st with visible := true }
  let st2 := hydrateFromStorage st1 s.store
  let r := fetchFox st2 s.store e.fetchRes
  { st := r.1, store := r.2, observing := false }

/-- One intersection-observer callback entry: act only when the entry
intersects and the component is not yet visible. -/
def observerStep (s : ObsState) (e : ObsEvent) : ObsState :=
  if e.isIntersecting = true ∧ s.st.visible = false then activate s e else s

/-- Processing a sequence of intersection events. -/
def runObserver (s : ObsState) (es : List ObsEvent) : ObsState :=
  es.foldl observerStep s

/-! ### Helper lemmas -/

theorem reactStep_likes_nonneg (st : CardState) (t : String)
    (h : 0 ≤ st.likes) : 0 ≤ (reactStep st t).likes := by
  unfold reactStep
  split_ifs <;> simp_all <;> omega

theorem reactStep_dislikes_nonneg (st : CardState) (t : String)
    (h : 0 ≤ st.dislikes) : 0 ≤ (reactStep st t).dislikes := by
  unfold reactStep
  split_ifs <;> simp_all <;> omega

theorem reactStep_userReact (st : CardState) (r : Option Kind) (k : Kind)
    (hr : st.userReact = encodeReaction r) :
    (reactStep st (kindStr k)).userReact = encodeReaction (activeStep r k) := by
  cases r with
  | none =>
      cases k <;>
        simp [reactStep, activeStep, encodeReaction, kindStr, hr]
  | some r0 =>
      cases r0 <;> cases k <;>
        simp [reactStep, activeStep, encodeReaction, kindStr, hr]

theorem hydrate_visible (st : CardState) (store : Store) :
    (hydrateFromStorage st store).visible = st.visible := by
  unfold hydrateFromStorage
  cases h : store globalKey with
  | none => simp
  | some it => cases it <;> simp

theorem fetchFox_visible (st : CardState) (store : Store) (res : FetchResult) :
    (fetchFox st store res).1.visible = st.visible := by
  cases res with
  | failure => simp [fetchFox]
  | success img lnk =>
      cases h : store (storageKey img) with
      | none => simp [fetchFox, h]
      | some it => cases it <;> simp [fetchFox, h]

theorem string_append_cancel (a b c : String) (h : a ++ b = a ++ c) : b = c := by
  have hd := congrArg String.data h
  simp at hd
  exact String.ext hd

theorem storageKey_ne_globalKey (img : String) (h : img ≠ "global") :
    storageKey img ≠ globalKey := by
  unfold storageKey globalKey
  by_cases h0 : img = ""
  · subst h0; decide
  · rw [if_neg h0]
    intro hEq
    apply h
    apply string_append_cancel "insta-card:" img "global"
    rw [hEq]; rfl

/-! ### Claims -/

/-- C1: for every starting component state (over the spec's three-valued
reaction encoding) and every kind in {like, dislike}, the `_react` transition
computes exactly the spec's transition function `specReact` on the
(likeCount, dislikeCount, userReaction) view of the state. -/
theorem c1_react_matches_spec (img lnk er : String) (vis ld sv : Bool)
    (l d : Int) (r : Option Kind) (k : Kind) :
    ((reactStep ⟨img, lnk, vis, ld, er, l, d, sv, encodeReaction r⟩
        (kindStr k)).likes = (specReact ⟨l, d, r⟩ k).likeCount) ∧
    ((reactStep ⟨img, lnk, vis, ld, er, l, d, sv, encodeReaction r⟩
        (kindStr k)).dislikes = (specReact ⟨l, d, r⟩ k).dislikeCount) ∧
    ((reactStep ⟨img, lnk, vis, ld, er, l, d, sv, encodeReaction r⟩
        (kindStr k)).userReact
      = encodeReaction (specReact ⟨l, d, r⟩ k).userReaction) := by
  cases r with
  | none =>
      cases k <;>
        simp [reactStep, specReact, encodeReaction, kindStr, otherKind]
  | some r0 =>
      cases r0 <;> cases k <;>
        simp [reactStep, specReact, encodeReaction, kindStr, otherKind]

/-- C2: along every finite sequence of `_react("like")` / `_react("dislike")`
calls from a state with non-negative counters and a well-formed reaction tag,
both counters stay non-negative and `userReact` equals the encoding of the
most recent reaction not yet toggled off (`activeAfter`). -/
theorem c2_reaction_invariant (st : CardState) (r : Option Kind)
    (hr : st.userReact = encodeReaction r)
    (hl : 0 ≤ st.likes) (hd : 0 ≤ st.dislikes) (ks : List Kind) :
    0 ≤ (runReacts st ks).likes ∧ 0 ≤ (runReacts st ks).dislikes ∧
      (runReacts st ks).userReact = encodeReaction (activeAfter r ks) := by
  induction ks generalizing st r with
  | nil => exact ⟨hl, hd, hr⟩
  | cons k ks ih =>
      have h1 := reactStep_likes_nonneg st (kindStr k) hl
      have h2 := reactStep_dislikes_nonneg st (kindStr k) hd
      have h3 := reactStep_userReact st r k hr
      exact ih (reactStep st (kindStr k)) (activeStep r k) h3 h1 h2

/-- Witness for C2 at a concrete state and call sequence. -/
theorem c2_reaction_invariant_witness :
    (⟨"A", "", true, false, "", 0, 0, false, ""⟩ : CardState).userReact
        = encodeReaction none ∧
    0 ≤ (runReacts ⟨"A", "", true, false, "", 0, 0, false, ""⟩
          [Kind.like, Kind.like, Kind.dislike]).likes ∧
    0 ≤ (runReacts ⟨"A", "", true, false, "", 0, 0, false, ""⟩
          [Kind.like, Kind.like, Kind.dislike]).dislikes ∧
    (runReacts ⟨"A", "", true, false, "", 0, 0, false, ""⟩
          [Kind.like, Kind.like, Kind.dislike]).userReact
        = encodeReaction (activeAfter none [Kind.like, Kind.like, Kind.dislike]) :=
  ⟨rfl, c2_reaction_invariant _ none rfl (by decide) (by decide) _⟩

/-- C5: for a fetch ending in transport failure or non-2xx status,
`_fetchFox` terminates with `loading = false`, `error` set to the fixed
failure string, and `image`, `likes`, `dislikes` unchanged. -/
theorem c5_fetch_failure (st : CardState) (store : Store) :
    ((fetchFox st store FetchResult.failure).1.loading = false) ∧
    ((fetchFox st store FetchResult.failure).1.error = failMsg) ∧
    ((fetchFox st store FetchResult.failure).1.image = st.image) ∧
    ((fetchFox st store FetchResult.failure).1.likes = st.likes) ∧
    ((fetchFox st store FetchResult.failure).1.dislikes = st.dislikes) := by
  simp [fetchFox]

/-- C8: a successful fetch whose image has no stored record resets the
counters and the reaction and leaves `saved` as hydration produced it. -/
theorem c8_absent_record_resets (st : CardState) (store : Store)
    (img : String) (lnk : Option String)
    (h : store (storageKey img) = none) :
    ((fetchFox st store (FetchResult.success img lnk)).1.likes = 0) ∧
    ((fetchFox st store (FetchResult.success img lnk)).1.dislikes = 0) ∧
    ((fetchFox st store (FetchResult.success img lnk)).1.userReact = "") ∧
    ((fetchFox st store (FetchResult.success img lnk)).1.saved = st.saved) := by
  simp [fetchFox, h]

/-- Witness for C8 on an empty store. -/
theorem c8_absent_record_resets_witness :
    ((fun _ => none : Store) (storageKey "A") = none) ∧
    ((fetchFox ⟨"", "", true, true, "", 4, 2, true, "like"⟩ (fun _ => none)
        (FetchResult.success "A" none)).1.likes = 0) ∧
    ((fetchFox ⟨"", "", true, true, "", 4, 2, true, "like"⟩ (fun _ => none)
        (FetchResult.success "A" none)).1.dislikes = 0) ∧
    ((fetchFox ⟨"", "", true, true, "", 4, 2, true, "like"⟩ (fun _ => none)
        (FetchResult.success "A" none)).1.userReact = "") ∧
    ((fetchFox ⟨"", "", true, true, "", 4, 2, true, "like"⟩ (fun _ => none)
        (FetchResult.success "A" none)).1.saved
      = (⟨"", "", true, true, "", 4, 2, true, "like"⟩ : CardState).saved) :=
  ⟨rfl, c8_absent_record_resets ⟨"", "", true, true, "", 4, 2, true, "like"⟩
    (fun _ => none) "A" none rfl⟩

/-- C10 (frame): `_toggleSave` changes no field other than `saved`, and
`_react` changes no field other than `likes`, `dislikes`, `userReact` (in
particular neither `saved` nor `image`). -/
theorem c10_frame (st : CardState) (store : Store) (t : String) :
    (((toggleSave st store).1.likes = st.likes) ∧
     ((toggleSave st store).1.dislikes = st.dislikes) ∧
     ((toggleSave st store).1.userReact = st.userReact) ∧
     ((toggleSave st store).1.image = st.image) ∧
     ((toggleSave st store).1.link = st.link) ∧
     ((toggleSave st store).1.loading = st.loading) ∧
     ((toggleSave st store).1.error = st.error) ∧
     ((toggleSave st store).1.visible = st.visible)) ∧
    (((react st store t).1.saved = st.saved) ∧
     ((react st store t).1.image = st.image) ∧
     ((react st store t).1.link = st.link) ∧
     ((react st store t).1.loading = st.loading) ∧
     ((react st store t).1.error = st.error) ∧
     ((react st store t).1.visible = st.visible)) := by
  constructor
  · simp [toggleSave, toggleSaveStep]
  · unfold react reactStep
    split_ifs <;> simp

/-- C3 counterexample: a malformed per-image record read during
reconciliation does not behave as an absent record — at a concrete input it
sets the user-visible error message and keeps the prior counters, while the
absent case clears the error and resets the counters. -/
theorem c3_counterexample :
    ((fetchFox ⟨"", "", true, true, "", 5, 2, false, "like"⟩
        (fun _ => some StoredItem.malformed)
        (FetchResult.success "A" none)).1.error = failMsg) ∧
    ((fetchFox ⟨"", "", true, true, "", 5, 2, false, "like"⟩
        (fun _ => some StoredItem.malformed)
        (FetchResult.success "A" none)).1.likes = 5) ∧
    ((fetchFox ⟨"", "", true, true, "", 5, 2, false, "like"⟩ (fun _ => none)
        (FetchResult.success "A" none)).1.error = "") ∧
    ((fetchFox ⟨"", "", true, true, "", 5, 2, false, "like"⟩ (fun _ => none)
        (FetchResult.success "A" none)).1.likes = 0) ∧
    (fetchFox ⟨"", "", true, true, "", 5, 2, false, "like"⟩
        (fun _ => some StoredItem.malformed)
        (FetchResult.success "A" none)).1
      ≠ (fetchFox ⟨"", "", true, true, "", 5, 2, false, "like"⟩ (fun _ => none)
        (FetchResult.success "A" none)).1 := by
  decide

/-- C3 amended: a malformed stored global record during hydration is treated
exactly as an absent one (the state is unchanged either way); but a malformed
per-image record during reconciliation after a successful fetch is not
treated as absent: `JSON.parse` throws into the shared catch, so
`errorMessage` is set to the fixed failure string and the counters, reaction
and `saved` keep their prior values instead of being reset, while the new
`image` and cleared `loading` are kept and the state is persisted. -/
theorem c3_amended :
    (∀ (st : CardState) (s1 s2 : Store),
        s1 globalKey = some StoredItem.malformed → s2 globalKey = none →
        hydrateFromStorage st s1 = st ∧ hydrateFromStorage st s2 = st) ∧
    (∀ (st : CardState) (store : Store) (img : String) (lnk : Option String),
        store (storageKey img) = some StoredItem.malformed →
        ((fetchFox st store (FetchResult.success img lnk)).1.error = failMsg) ∧
        ((fetchFox st store (FetchResult.success img lnk)).1.likes = st.likes) ∧
        ((fetchFox st store (FetchResult.success img lnk)).1.dislikes = st.dislikes) ∧
        ((fetchFox st store (FetchResult.success img lnk)).1.userReact = st.userReact) ∧
        ((fetchFox st store (FetchResult.success img lnk)).1.saved = st.saved) ∧
        ((fetchFox st store (FetchResult.success img lnk)).1.loading = false) ∧
        ((fetchFox st store (FetchResult.success img lnk)).1.image = img)) := by
  constructor
  · intro st s1 s2 h1 h2
    constructor <;> simp [hydrateFromStorage, h1, h2]
  · intro st store img lnk h
    simp [fetchFox, h]

/-- Witness for C3 amended at a concrete state and store. -/
theorem c3_amended_witness :
    ((fun _ => some StoredItem.malformed : Store) globalKey
        = some StoredItem.malformed) ∧
    (hydrateFromStorage ⟨"", "", true, true, "", 5, 2, false, "like"⟩
        (fun _ => some StoredItem.malformed)
      = ⟨"", "", true, true, "", 5, 2, false, "like"⟩) ∧
    ((fun _ => some StoredItem.malformed : Store) (storageKey "A")
        = some StoredItem.malformed) ∧
    ((fetchFox ⟨"", "", true, true, "", 5, 2, false, "like"⟩
        (fun _ => some StoredItem.malformed)
        (FetchResult.success "A" none)).1.error = failMsg) :=
  ⟨rfl,
   (c3_amended.1 ⟨"", "", true, true, "", 5, 2, false, "like"⟩
      (fun _ => some StoredItem.malformed) (fun _ => none) rfl rfl).1,
   rfl,
   (c3_amended.2 ⟨"", "", true, true, "", 5, 2, false, "like"⟩
      (fun _ => some StoredItem.malformed) "A" none rfl).1⟩

/-- C4 counterexample: a partially missing stored record with
`userReact = "like"` but no `likes` field reconciles to a state with
`userReaction = like` and `likeCount = 0`, violating the claimed invariant. -/
theorem c4_counterexample :
    ((fetchFox ⟨"", "", true, true, "", 0, 0, false, ""⟩
        (fun k => if k = storageKey "B" then
          some (StoredItem.parsable ⟨none, none, some "like", none⟩) else none)
        (FetchResult.success "B" none)).1.userReact = "like") ∧
    ((fetchFox ⟨"", "", true, true, "", 0, 0, false, ""⟩
        (fun k => if k = storageKey "B" then
          some (StoredItem.parsable ⟨none, none, some "like", none⟩) else none)
        (FetchResult.success "B" none)).1.likes = 0) := by
  decide

/-- C4 amended: reconciliation restores the stored record verbatim (with
defaults), so the invariant `userReaction = like ⇒ likeCount ≥ 1` (and
likewise for dislike) holds after reconciliation precisely when the stored
record itself satisfies it after defaulting; it can be violated by a record
whose reaction is set while the matching counter is missing or zero. -/
theorem c4_amended (st : CardState) (store : Store) (img : String)
    (lnk : Option String) (p : StoredRecord)
    (h : store (storageKey img) = some (StoredItem.parsable p))
    (hlike : p.userReactF.getD "" = "like" → 1 ≤ p.likesF.getD 0)
    (hdis : p.userReactF.getD "" = "dislike" → 1 ≤ p.dislikesF.getD 0) :
    ((fetchFox st store (FetchResult.success img lnk)).1.userReact = "like" →
      1 ≤ (fetchFox st store (FetchResult.success img lnk)).1.likes) ∧
    ((fetchFox st store (FetchResult.success img lnk)).1.userReact = "dislike" →
      1 ≤ (fetchFox st store (FetchResult.success img lnk)).1.dislikes) := by
  simp only [fetchFox, h]
  exact ⟨hlike, hdis⟩

/-- Witness for C4 amended on a record that satisfies the invariant. -/
theorem c4_amended_witness :
    ((fun _ => some (StoredItem.parsable ⟨some 3, some 1, some "like", some true⟩)
        : Store) (storageKey "B")
      = some (StoredItem.parsable ⟨some 3, some 1, some "like", some true⟩)) ∧
    (((⟨some 3, some 1, some "like", some true⟩ : StoredRecord).userReactF.getD ""
        = "like" → 1 ≤ (⟨some 3, some 1, some "like", some true⟩
          : StoredRecord).likesF.getD 0)) ∧
    ((fetchFox ⟨"", "", true, true, "", 0, 0, false, ""⟩
        (fun _ => some (StoredItem.parsable ⟨some 3, some 1, some "like", some true⟩))
        (FetchResult.success "B" none)).1.userReact = "like" →
      1 ≤ (fetchFox ⟨"", "", true, true, "", 0, 0, false, ""⟩
        (fun _ => some (StoredItem.parsable ⟨some 3, some 1, some "like", some true⟩))
        (FetchResult.success "B" none)).1.likes) :=
  ⟨rfl, by decide,
   (c4_amended ⟨"", "", true, true, "", 0, 0, false, ""⟩
      (fun _ => some (StoredItem.parsable ⟨some 3, some 1, some "like", some true⟩))
      "B" none ⟨some 3, some 1, some "like", some true⟩ rfl
      (by decide) (by decide)).1⟩

/-- C6 counterexample: for the non-empty image identity `"global"`, the
per-image storage key collides with the global preference key, so `_persist`'s
second write clobbers the reaction record and the round trip restores zeroed
counters instead of the persisted values. -/
theorem c6_counterexample :
    ((fetchFox ⟨"global", "", true, false, "", 3, 1, true, "like"⟩
        (persist ⟨"global", "", true, false, "", 3, 1, true, "like"⟩ (fun _ => none))
        (FetchResult.success "global" none)).1.likes = 0) ∧
    ((fetchFox ⟨"global", "", true, false, "", 3, 1, true, "like"⟩
        (persist ⟨"global", "", true, false, "", 3, 1, true, "like"⟩ (fun _ => none))
        (FetchResult.success "global" none)).1.userReact = "") ∧
    ¬(((fetchFox ⟨"global", "", true, false, "", 3, 1, true, "like"⟩
        (persist ⟨"global", "", true, false, "", 3, 1, true, "like"⟩ (fun _ => none))
        (FetchResult.success "global" none)).1.likes = 3) ∧
      ((fetchFox ⟨"global", "", true, false, "", 3, 1, true, "like"⟩
        (persist ⟨"global", "", true, false, "", 3, 1, true, "like"⟩ (fun _ => none))
        (FetchResult.success "global" none)).1.userReact = "like")) := by
  decide

/-- C6 amended: for every state whose image identity is non-empty and
different from `"global"` (whose key would collide with the global
preference key), persisting and then reconciling a fetch of the same image
identity restores likes, dislikes, userReact and saved exactly. -/
theorem c6_roundtrip_amended (st st2 : CardState) (store : Store)
    (lnk : Option String) (h1 : st.image ≠ "") (h2 : st.image ≠ "global") :
    ((fetchFox st2 (persist st store)
        (FetchResult.success st.image lnk)).1.likes = st.likes) ∧
    ((fetchFox st2 (persist st store)
        (FetchResult.success st.image lnk)).1.dislikes = st.dislikes) ∧
    ((fetchFox st2 (persist st store)
        (FetchResult.success st.image lnk)).1.userReact = st.userReact) ∧
    ((fetchFox st2 (persist st store)
        (FetchResult.success st.image lnk)).1.saved = st.saved) := by
  have hk := storageKey_ne_globalKey st.image h2
  have hread : (persist st store) (storageKey st.image)
      = some (StoredItem.parsable (recordOf st)) := by
    simp [persist, h1, hk]
  simp [fetchFox, hread, recordOf]

/-- Witness for C6 amended at the spec's scenario for image `"B"`. -/
theorem c6_roundtrip_amended_witness :
    ((⟨"B", "", true, false, "", 3, 1, true, "like"⟩ : CardState).image ≠ "") ∧
    ((⟨"B", "", true, false, "", 3, 1, true, "like"⟩ : CardState).image ≠ "global") ∧
    ((fetchFox ⟨"", "", true, true, "", 0, 0, false, ""⟩
        (persist ⟨"B", "", true, false, "", 3, 1, true, "like"⟩ (fun _ => none))
        (FetchResult.success
          (⟨"B", "", true, false, "", 3, 1, true, "like"⟩ : CardState).image
          none)).1.likes
      = (⟨"B", "", true, false, "", 3, 1, true, "like"⟩ : CardState).likes) :=
  ⟨by decide, by decide,
   (c6_roundtrip_amended ⟨"B", "", true, false, "", 3, 1, true, "like"⟩
      ⟨"", "", true, true, "", 0, 0, false, ""⟩ (fun _ => none) none
      (by decide) (by decide)).1⟩

/-- C7 counterexample: on a store with no global record yet, two
`_toggleSave` calls return `saved` to its original value but leave the
persisted global record present where it was previously absent, so the
store is not what it was before either call. -/
theorem c7_counterexample :
    ((toggleSave (toggleSave ⟨"", "", false, false, "", 0, 0, false, ""⟩
        (fun _ => none)).1
      (toggleSave ⟨"", "", false, false, "", 0, 0, false, ""⟩
        (fun _ => none)).2).1.saved = false) ∧
    ((fun _ => none : Store) globalKey = none) ∧
    ((toggleSave (toggleSave ⟨"", "", false, false, "", 0, 0, false, ""⟩
        (fun _ => none)).1
      (toggleSave ⟨"", "", false, false, "", 0, 0, false, ""⟩
        (fun _ => none)).2).2 globalKey
      = some (StoredItem.parsable ⟨none, none, none, some false⟩)) ∧
    ((toggleSave (toggleSave ⟨"", "", false, false, "", 0, 0, false, ""⟩
        (fun _ => none)).1
      (toggleSave ⟨"", "", false, false, "", 0, 0, false, ""⟩
        (fun _ => none)).2).2 globalKey
      ≠ (fun _ => none : Store) globalKey) := by
  decide

/-- C7 amended: two successive `_toggleSave` calls return `saved` to its
original value, and leave the persisted global record equal to the record
`_persist` derives from the original state; in particular the global record
is unchanged whenever it already held that value before the calls (as it
does after any earlier `_persist`). -/
theorem c7_amended (st : CardState) (store : Store) :
    ((toggleSave (toggleSave st store).1 (toggleSave st store).2).1.saved
        = st.saved) ∧
    ((toggleSave (toggleSave st store).1 (toggleSave st store).2).2 globalKey
        = some (StoredItem.parsable (globalRecordOf st))) ∧
    (store globalKey = some (StoredItem.parsable (globalRecordOf st)) →
      (toggleSave (toggleSave st store).1 (toggleSave st store).2).2 globalKey
        = store globalKey) := by
  refine ⟨?_, ?_, ?_⟩
  · simp [toggleSave, toggleSaveStep]
  · simp [toggleSave, toggleSaveStep, persist, globalRecordOf]
  · intro h
    simp [toggleSave, toggleSaveStep, persist, globalRecordOf, h]

/-- Witness for C7 amended on a store already holding the global record. -/
theorem c7_amended_witness :
    ((fun _ => some (StoredItem.parsable ⟨none, none, none, some true⟩) : Store)
        globalKey
      = some (StoredItem.parsable
          (globalRecordOf ⟨"", "", false, false, "", 0, 0, true, ""⟩))) ∧
    ((toggleSave (toggleSave ⟨"", "", false, false, "", 0, 0, true, ""⟩
        (fun _ => some (StoredItem.parsable ⟨none, none, none, some true⟩))).1
      (toggleSave ⟨"", "", false, false, "", 0, 0, true, ""⟩
        (fun _ => some (StoredItem.parsable ⟨none, none, none, some true⟩))).2).2
        globalKey
      = (fun _ => some (StoredItem.parsable ⟨none, none, none, some true⟩) : Store)
        globalKey) :=
  ⟨rfl,
   (c7_amended ⟨"", "", false, false, "", 0, 0, true, ""⟩
      (fun _ => some (StoredItem.parsable ⟨none, none, none, some true⟩))).2.2 rfl⟩

/-- C9: only the first intersecting event has an effect — an event is a
no-op whenever the component is already visible or the entry does not
intersect; from a not-yet-visible state an intersecting event runs the
activation body (visible := true, hydrate, fetch, stop observing); and once
visible, any further sequence of events leaves the state exactly unchanged,
so visible transitions false to true at most once. -/
theorem c9_visibility_gate :
    (∀ (s : ObsState) (e : ObsEvent), s.st.visible = true →
      observerStep s e = s) ∧
    (∀ (s : ObsState) (e : ObsEvent), e.isIntersecting = false →
      observerStep s e = s) ∧
    (∀ (s : ObsState) (e : ObsEvent), s.st.visible = false →
      e.isIntersecting = true →
      (observerStep s e).st.visible = true ∧
      (observerStep s e).observing = false ∧
      observerStep s e = activate s e) ∧
    (∀ (s : ObsState) (es : List ObsEvent), s.st.visible = true →
      runObserver s es = s) := by
  have h1 : ∀ (s : ObsState) (e : ObsEvent), s.st.visible = true →
      observerStep s e = s := by
    intro s e h
    simp [observerStep, h]
  have h3 : ∀ (s : ObsState) (e : ObsEvent), s.st.visible = false →
      e.isIntersecting = true → observerStep s e = activate s e := by
    intro s e hv hi
    simp [observerStep, hv, hi]
  refine ⟨h1, ?_, ?_, ?_⟩
  · intro s e h
    simp [observerStep, h]
  · intro s e hv hi
    refine ⟨?_, ?_, h3 s e hv hi⟩
    · rw [h3 s e hv hi]
      simp [activate, fetchFox_visible, hydrate_visible]
    · rw [h3 s e hv hi]
      rfl
  · intro s es
    induction es generalizing s with
    | nil => intro _; rfl
    | cons e es ih =>
        intro h
        show runObserver (observerStep s e) es = s
        rw [h1 s e h]
        exact ih s h

/-- Witness for C9 at a concrete already-visible state. -/
theorem c9_visibility_gate_witness :
    observerStep
      ⟨⟨"", "", true, false, "", 0, 0, false, ""⟩, fun _ => none, false⟩
      ⟨true, FetchResult.failure⟩
    = ⟨⟨"", "", true, false, "", 0, 0, false, ""⟩, fun _ => none, false⟩ :=
  c9_visibility_gate.1
    ⟨⟨"", "", true, false, "", 0, 0, false, ""⟩, fun _ => none, false⟩
    ⟨true, FetchResult.failure⟩ rfl

end InstaCard
